import Mathlib

/-!
Verification of the `RingViewer` component (src/src/RingViewer.jsx).

The component's pure logic is embedded shallowly: colors and sizes are
exact rationals (the JavaScript floats), material/mesh state is explicit
records, the asynchronous load callbacks and the teardown closure are
state-transition functions.
-/

set_option maxHeartbeats 1000000

namespace RingSpec

/-- RGB color of a three.js material; channels are exact rationals
(three.js keeps them as floats in `[0,1]`). -/
structure Color where
  r : ℚ
  g : ℚ
  b : ℚ
deriving DecidableEq

/-- `isGreenish` from RingViewer.jsx:
`color.g > 0.35 && color.r < 0.25 && color.b < 0.25`, with the
`if (!color) return false` guard modelled by `Option`. -/
def isGreenish : Option Color → Bool
  | none => false
  | some c => decide (c.g > 0.35) && decide (c.r < 0.25) && decide (c.b < 0.25)

/-- `isBluish` from RingViewer.jsx:
`color.b > 0.35 && color.r < 0.3 && color.g < 0.35`, with the
`if (!color) return false` guard modelled by `Option`. -/
def isBluish : Option Color → Bool
  | none => false
  | some c => decide (c.b > 0.35) && decide (c.r < 0.3) && decide (c.g < 0.35)

/-- Does the character list begin with `pat`?  (The anchored step of
JavaScript `String.prototype.includes`.) -/
def charsStartWith : List Char → List Char → Bool
  | [], _ => true
  | _ :: _, [] => false
  | p :: ps, c :: cs => p == c && charsStartWith ps cs

/-- Does `pat` occur contiguously inside the list?  Models JavaScript
`String.prototype.includes`. -/
def charsContain (pat : List Char) : List Char → Bool
  | [] => pat.isEmpty
  | c :: cs => charsStartWith pat (c :: cs) || charsContain pat cs

/-- `s.includes(pat)` for strings. -/
def strIncludes (s pat : String) : Bool :=
  charsContain pat.toList s.toList

/-- `name.includes("gem") || name.includes("stone") || name.includes("diamond")
|| name.includes("center") || name.includes("mainstone")`, applied to the
already lower-cased mesh name. -/
def nameSuggestsGem (name : String) : Bool :=
  strIncludes name "gem" || strIncludes name "stone" ||
  strIncludes name "diamond" || strIncludes name "center" ||
  strIncludes name "mainstone"

/-- A mesh's original material: JavaScript allows a single material or an
array of materials; we keep the datum the classifier reads, the optional
`color` of each. -/
inductive OldMat where
  | single (color : Option Color)
  | array (colors : List (Option Color))

/-- `Array.isArray(oldMat) ? oldMat[0]?.color : oldMat?.color`. -/
def oldMatColor : Option OldMat → Option Color
  | none => none
  | some (.single c) => c
  | some (.array l) => l.head?.join

/-- Which of the two shared materials a mesh ends up referencing. -/
inductive MatTag where
  | gem
  | metal
deriving DecidableEq

/-- Per-mesh outcome of the `ringRoot.traverse` callback: the shared
material now referenced, the mesh's `renderOrder`, and the
`(depthTest, depthWrite)` pair written to that material (written only on
the gem branch). -/
structure Assignment where
  tag : MatTag
  renderOrder : ℕ
  depthFlags : Option (Bool × Bool)
deriving DecidableEq

/-- The body of `ringRoot.traverse((obj) => ...)` for a mesh object:
lower-case the name, test the gem-suggesting substrings and the bluish
color, and assign either the shared gem material (render order 2, depth
test on, depth write off) or the shared metal material (render order 0),
with the `useMetal || isGreenish(oldColor)` else-if chain kept as in the
source. -/
def classifyMesh (objName : String) (oldMat : Option OldMat) : Assignment :=
  let name := objName.toLower
  let suggests := nameSuggestsGem name
  let oldColor := oldMatColor oldMat
  let useGem := suggests || isBluish oldColor
  let useMetal := !useGem
  if useGem then
    { tag := .gem, renderOrder := 2, depthFlags := some (true, false) }
  else if useMetal || isGreenish oldColor then
    { tag := .metal, renderOrder := 0, depthFlags := none }
  else
    { tag := .metal, renderOrder := 0, depthFlags := none }

/-- The same traverse body with the greenish test abstracted into a
parameter, to express that its value is immaterial. -/
def classifyMeshWithGreen (green : Option Color → Bool)
    (objName : String) (oldMat : Option OldMat) : Assignment :=
  let name := objName.toLower
  let suggests := nameSuggestsGem name
  let oldColor := oldMatColor oldMat
  let useGem := suggests || isBluish oldColor
  let useMetal := !useGem
  if useGem then
    { tag := .gem, renderOrder := 2, depthFlags := some (true, false) }
  else if useMetal || green oldColor then
    { tag := .metal, renderOrder := 0, depthFlags := none }
  else
    { tag := .metal, renderOrder := 0, depthFlags := none }

/-- The traverse body with the greenish check removed: a plain two-way
split on `useGem`. -/
def classifyMeshNoGreen (objName : String) (oldMat : Option OldMat) : Assignment :=
  let name := objName.toLower
  let suggests := nameSuggestsGem name
  let oldColor := oldMatColor oldMat
  let useGem := suggests || isBluish oldColor
  if useGem then
    { tag := .gem, renderOrder := 2, depthFlags := some (true, false) }
  else
    { tag := .metal, renderOrder := 0, depthFlags := none }

/-- C1: a mesh is assigned the shared gem material exactly when its
lower-cased name contains one of "gem", "stone", "diamond", "center",
"mainstone" or its original material color satisfies the bluish
predicate; a gem mesh gets render order 2 with depth test enabled and
depth write disabled, and every other mesh gets the shared metal
material with render order 0. -/
theorem c1_classification (objName : String) (oldMat : Option OldMat) :
    ((classifyMesh objName oldMat).tag = MatTag.gem ↔
      (nameSuggestsGem objName.toLower = true ∨
        isBluish (oldMatColor oldMat) = true)) ∧
    ((classifyMesh objName oldMat).tag = MatTag.gem →
      classifyMesh objName oldMat =
        ⟨MatTag.gem, 2, some (true, false)⟩) ∧
    ((classifyMesh objName oldMat).tag ≠ MatTag.gem →
      classifyMesh objName oldMat = ⟨MatTag.metal, 0, none⟩) := by
  unfold classifyMesh
  cases h1 : nameSuggestsGem objName.toLower <;>
    cases h2 : isBluish (oldMatColor oldMat) <;>
      simp [h1, h2]

/-- C3: the greenish predicate's value is immaterial during
classification — with any predicate in its place the traverse body
computes the same assignment, and the whole classification is
extensionally equal to the version with the greenish check removed;
for every mesh not classified as gem the result is the metal material
with render order 0. -/
theorem c3_greenish_redundant :
    (∀ green objName oldMat,
      classifyMeshWithGreen green objName oldMat = classifyMesh objName oldMat) ∧
    (∀ objName oldMat,
      classifyMesh objName oldMat = classifyMeshNoGreen objName oldMat) ∧
    (∀ objName oldMat,
      (classifyMesh objName oldMat).tag ≠ MatTag.gem →
      classifyMesh objName oldMat = ⟨MatTag.metal, 0, none⟩) := by
  refine ⟨?_, ?_, ?_⟩
  · intro green objName oldMat
    unfold classifyMeshWithGreen classifyMesh
    cases h1 : nameSuggestsGem objName.toLower <;>
      cases h2 : isBluish (oldMatColor oldMat) <;>
        simp [h1, h2]
  · intro objName oldMat
    unfold classifyMesh classifyMeshNoGreen
    cases h1 : nameSuggestsGem objName.toLower <;>
      cases h2 : isBluish (oldMatColor oldMat) <;>
        simp [h1, h2]
  · intro objName oldMat
    unfold classifyMesh
    cases h1 : nameSuggestsGem objName.toLower <;>
      cases h2 : isBluish (oldMatColor oldMat) <;>
        simp [h1, h2]

/-- The environment textures a material's `envMap` can reference:
`metalEnv` is `pmrem.fromScene(new RoomEnvironment(), 0.04).texture`
(the synthetic room reflection map); `hdrEnv` is
`pmrem.fromEquirectangular(hdr).texture` built in the HDR success
callback. -/
inductive Tex where
  | metalEnv
  | hdrEnv
deriving DecidableEq

/-- The state of the shared gem material `diamondMat` that the HDR
callbacks touch: `envMap`, `envMapIntensity`, `needsUpdate`. -/
structure GemMat where
  envMap : Option Tex
  envMapIntensity : ℚ
  needsUpdate : Bool
deriving DecidableEq

/-- `diamondMat` as constructed: `envMapIntensity: 5`, no `envMap` set
yet, `needsUpdate` still false. -/
def diamondMatInit : GemMat :=
  { envMap := none, envMapIntensity := 5, needsUpdate := false }

/-- The `rgbeLoader.load` success callback: build the reflection map from
the equirectangular HDR and assign it (`diamondMat.envMap = diamondEnv;
diamondMat.needsUpdate = true`). -/
def hdrOnLoad (m : GemMat) : GemMat :=
  { m with envMap := some Tex.hdrEnv, needsUpdate := true }

/-- The `rgbeLoader.load` error callback: `diamondMat.envMap = metalEnv;
diamondMat.envMapIntensity = 6; diamondMat.needsUpdate = true`. -/
def hdrOnError (m : GemMat) : GemMat :=
  { m with envMap := some Tex.metalEnv, envMapIntensity := 6,
           needsUpdate := true }

/-- Outcome of the asynchronous HDR fetch. -/
inductive HdrOutcome where
  | success
  | failure
deriving DecidableEq

/-- The gem material after the HDR load settles: the success callback on
success, the error callback on failure (a network failure means the
success callback is never invoked and the error callback runs). -/
def hdrSettle : HdrOutcome → GemMat → GemMat
  | .success, m => hdrOnLoad m
  | .failure, m => hdrOnError m

/-- C2: when the HDR load fails (the load callback is never invoked),
the gem material's environment map is the synthetic room reflection map
`metalEnv` and its environment-map intensity is the fallback value 6. -/
theorem c2_hdr_fallback :
    (hdrSettle HdrOutcome.failure diamondMatInit).envMap = some Tex.metalEnv ∧
    (hdrSettle HdrOutcome.failure diamondMatInit).envMapIntensity = 6 := by
  constructor <;> rfl

/-- A metal preset record from the `METALS` table. -/
structure MetalPreset where
  label : String
  color : ℕ
  roughness : ℚ
  envIntensity : ℚ
deriving DecidableEq

/-- The `METALS` table, in insertion order (keys as JavaScript
`Object.keys` yields them). -/
def METALS : List (String × MetalPreset) :=
  [("yellow", ⟨"Yellow Gold", 0xe3bb5e, 0.1, 2.2⟩),
   ("white", ⟨"White Gold", 0xc2c2c3, 0.1, 2.0⟩),
   ("rose", ⟨"Rose Gold", 0xd9a483, 0.1, 2.1⟩)]

/-- `METAL_KEYS = Object.keys(METALS)`. -/
def METAL_KEYS : List String :=
  METALS.map Prod.fst

/-- The state of the shared metal material `goldMat`. -/
structure MetalMat where
  color : ℕ
  metalness : ℚ
  roughness : ℚ
  envMapIntensity : ℚ
  envMap : Option Tex
  needsUpdate : Bool
deriving DecidableEq

/-- `goldMat` as built from the chosen preset:
`color: metal.color, metalness: 1.0, roughness: metal.roughness + 0.05,
envMapIntensity: metal.envIntensity * 0.75`, followed by
`goldMat.envMap = metalEnv; goldMat.needsUpdate = true`. -/
def makeGoldMat (metal : MetalPreset) : MetalMat :=
  { color := metal.color, metalness := 1.0,
    roughness := metal.roughness + 0.05,
    envMapIntensity := metal.envIntensity * 0.75,
    envMap := some Tex.metalEnv, needsUpdate := true }

/-- C10: for every preset in the catalog the shared metal material is
not the preset verbatim — its roughness is the preset's roughness plus
0.05 (hence different), its environment-map intensity is the preset's
envIntensity times 0.75 (hence different), while metalness is fixed at
1.0 and the color is taken verbatim. -/
theorem c10_gold_mat_not_verbatim (kp : String × MetalPreset)
    (hmem : kp ∈ METALS) :
    (makeGoldMat kp.2).roughness = kp.2.roughness + 0.05 ∧
    (makeGoldMat kp.2).envMapIntensity = kp.2.envIntensity * 0.75 ∧
    (makeGoldMat kp.2).metalness = 1.0 ∧
    (makeGoldMat kp.2).color = kp.2.color ∧
    (makeGoldMat kp.2).roughness ≠ kp.2.roughness ∧
    (makeGoldMat kp.2).envMapIntensity ≠ kp.2.envIntensity := by
  fin_cases hmem <;>
    refine ⟨rfl, rfl, rfl, rfl, ?_, ?_⟩ <;>
      norm_num [makeGoldMat]

/-- Witness for C10 at the first catalog entry. -/
theorem c10_gold_mat_not_verbatim_witness :
    (("yellow", (⟨"Yellow Gold", 0xe3bb5e, 0.1, 2.2⟩ : MetalPreset)) ∈ METALS) ∧
    ((makeGoldMat (⟨"Yellow Gold", 0xe3bb5e, 0.1, 2.2⟩ : MetalPreset)).roughness =
        (0.1 : ℚ) + 0.05 ∧
      (makeGoldMat ⟨"Yellow Gold", 0xe3bb5e, 0.1, 2.2⟩).envMapIntensity =
        (2.2 : ℚ) * 0.75 ∧
      (makeGoldMat ⟨"Yellow Gold", 0xe3bb5e, 0.1, 2.2⟩).metalness = 1.0 ∧
      (makeGoldMat ⟨"Yellow Gold", 0xe3bb5e, 0.1, 2.2⟩).color = 0xe3bb5e ∧
      (makeGoldMat ⟨"Yellow Gold", 0xe3bb5e, 0.1, 2.2⟩).roughness ≠ (0.1 : ℚ) ∧
      (makeGoldMat ⟨"Yellow Gold", 0xe3bb5e, 0.1, 2.2⟩).envMapIntensity ≠ (2.2 : ℚ)) :=
  ⟨by simp [METALS],
   c10_gold_mat_not_verbatim ("yellow", ⟨"Yellow Gold", 0xe3bb5e, 0.1, 2.2⟩)
     (by simp [METALS])⟩

/-- The `RING_MODELS` catalog: the ten model asset paths, in order. -/
def RING_MODELS : List String :=
  ["/models/ring1.glb", "/models/ring2.glb", "/models/ring3.glb",
   "/models/ring4.glb", "/models/ring5.glb", "/models/ring6.glb",
   "/models/ring7.glb", "/models/ring8.glb", "/models/ring9.glb",
   "/models/ring10.glb"]

/-- JavaScript array indexing `arr[i]`: `undefined` (here `none`) outside
the bounds. -/
def jsIndex {α : Type} (arr : List α) (i : ℤ) : Option α :=
  if i < 0 then none else arr[i.toNat]?

/-- `Math.floor(rnd * arr.length)` — the index `pickRandom` reads, with
`rnd` the value `Math.random()` returned. -/
def pickIndex (len : ℕ) (rnd : ℚ) : ℤ :=
  ⌊rnd * (len : ℚ)⌋

/-- `pickRandom(arr) = arr[Math.floor(Math.random() * arr.length)]`,
with the `Math.random()` result `rnd` made explicit. -/
def pickRandom {α : Type} (arr : List α) (rnd : ℚ) : Option α :=
  jsIndex arr (pickIndex arr.length rnd)

/-- One `useRef(init)` cell: on first render the initial value is stored
and returned; on every later render the stored value is returned and the
(recomputed) initial value is discarded. -/
def useRefCell {α : Type} (cell : Option α) (init : α) : α × Option α :=
  match cell with
  | some v => (v, some v)
  | none => (init, some init)

/-- The two ref cells of a `RingViewer` instance:
`useRef(pickRandom(RING_MODELS))` and `useRef(pickRandom(METAL_KEYS))`.
`none` means the cell has not been initialised yet. -/
structure RefStore where
  modelPathCell : Option (Option String)
  metalKeyCell : Option (Option String)
deriving DecidableEq

/-- A freshly mounted component instance: no ref cell initialised. -/
def emptyStore : RefStore :=
  ⟨none, none⟩

/-- One render of `RingViewer`: read `modelPath` and `metalKey` through
the ref cells, passing fresh `Math.random()` draws `r1, r2` to the
initialisers (which are only consulted on the first render). Returns the
pair the render uses and the updated store. -/
def renderRingViewer (store : RefStore) (r1 r2 : ℚ) :
    (Option String × Option String) × RefStore :=
  let mp := useRefCell store.modelPathCell (pickRandom RING_MODELS r1)
  let mk := useRefCell store.metalKeyCell (pickRandom METAL_KEYS r2)
  ((mp.1, mk.1), ⟨mp.2, mk.2⟩)

theorem pickRandom_mem {α : Type} (arr : List α) (rnd : ℚ)
    (h0 : 0 ≤ rnd) (h1 : rnd < 1) (hne : arr ≠ []) :
    ∃ x, pickRandom arr rnd = some x ∧ x ∈ arr := by
  have hlen : 0 < arr.length := List.length_pos.mpr hne
  have hlenq : (0 : ℚ) < (arr.length : ℚ) := by exact_mod_cast hlen
  have hge : 0 ≤ pickIndex arr.length rnd :=
    Int.floor_nonneg.mpr (mul_nonneg h0 (le_of_lt hlenq))
  have hlt : pickIndex arr.length rnd < (arr.length : ℤ) := by
    apply Int.floor_lt.mpr
    push_cast
    calc rnd * (arr.length : ℚ) < 1 * (arr.length : ℚ) :=
          mul_lt_mul_of_pos_right h1 hlenq
      _ = (arr.length : ℚ) := one_mul _
  have hnat : (pickIndex arr.length rnd).toNat < arr.length := by omega
  refine ⟨arr[(pickIndex arr.length rnd).toNat], ?_, List.getElem_mem _⟩
  unfold pickRandom jsIndex
  rw [if_neg (by omega)]
  exact List.getElem?_eq_getElem hnat

theorem pickIndex_uniform (len : ℕ) (rnd : ℚ) (j : ℕ) (hlen : 0 < len) :
    pickIndex len rnd = (j : ℤ) ↔
      (j : ℚ) / (len : ℚ) ≤ rnd ∧ rnd < ((j : ℚ) + 1) / (len : ℚ) := by
  have hlenq : (0 : ℚ) < (len : ℚ) := by exact_mod_cast hlen
  unfold pickIndex
  rw [Int.floor_eq_iff, div_le_iff₀ hlenq, lt_div_iff₀ hlenq]
  push_cast
  constructor
  · rintro ⟨ha, hb⟩
    exact ⟨ha, by linarith⟩
  · rintro ⟨ha, hb⟩
    exact ⟨ha, by linarith⟩

/-- The property C4 asserts of a mount whose two `Math.random()` draws
were `r1` and `r2`: the first render picks a model path from the
ten-element catalog and a metal key from the three-key catalog (the key
looks up a preset in `METALS`), every later render returns the same pair
and leaves the ref cells unchanged, and each draw is uniform — the
chosen index is `j` exactly when the random value falls in the length-
`1/n` interval `[j/n, (j+1)/n)`. -/
def SelectionSpec (r1 r2 : ℚ) : Prop :=
  RING_MODELS.length = 10 ∧ METAL_KEYS.length = 3 ∧
  ∃ p k,
    (renderRingViewer emptyStore r1 r2).1 = (some p, some k) ∧
    p ∈ RING_MODELS ∧ k ∈ METAL_KEYS ∧
    (∃ preset, (k, preset) ∈ METALS) ∧
    (∀ r1' r2',
      renderRingViewer (renderRingViewer emptyStore r1 r2).2 r1' r2' =
        ((some p, some k), (renderRingViewer emptyStore r1 r2).2)) ∧
    (∀ j : ℕ, j < RING_MODELS.length →
      (pickIndex RING_MODELS.length r1 = (j : ℤ) ↔
        (j : ℚ) / (RING_MODELS.length : ℚ) ≤ r1 ∧
          r1 < ((j : ℚ) + 1) / (RING_MODELS.length : ℚ))) ∧
    (∀ j : ℕ, j < METAL_KEYS.length →
      (pickIndex METAL_KEYS.length r2 = (j : ℤ) ↔
        (j : ℚ) / (METAL_KEYS.length : ℚ) ≤ r2 ∧
          r2 < ((j : ℚ) + 1) / (METAL_KEYS.length : ℚ)))

/-- C4: per mount, exactly one model path and one metal key are drawn,
each by a single uniform random draw; the pair is a member of the
respective catalogs and stays unchanged across re-renders until
unmount. -/
theorem c4_selection (r1 r2 : ℚ)
    (h1 : 0 ≤ r1) (h2 : r1 < 1) (h3 : 0 ≤ r2) (h4 : r2 < 1) :
    SelectionSpec r1 r2 := by
  obtain ⟨p, hp, hpm⟩ :=
    pickRandom_mem RING_MODELS r1 h1 h2 (by simp [RING_MODELS])
  obtain ⟨k, hk, hkm⟩ :=
    pickRandom_mem METAL_KEYS r2 h3 h4 (by simp [METAL_KEYS, METALS])
  refine ⟨rfl, rfl, p, k, ?_, hpm, hkm, ?_, ?_, ?_, ?_⟩
  · simp [renderRingViewer, emptyStore, useRefCell, hp, hk]
  · fin_cases hkm
    · exact ⟨⟨"Yellow Gold", 0xe3bb5e, 0.1, 2.2⟩, by simp [METALS]⟩
    · exact ⟨⟨"White Gold", 0xc2c2c3, 0.1, 2.0⟩, by simp [METALS]⟩
    · exact ⟨⟨"Rose Gold", 0xd9a483, 0.1, 2.1⟩, by simp [METALS]⟩
  · intro r1' r2'
    simp [renderRingViewer, emptyStore, useRefCell, hp, hk]
  · intro j _
    exact pickIndex_uniform RING_MODELS.length r1 j (by simp [RING_MODELS])
  · intro j _
    exact pickIndex_uniform METAL_KEYS.length r2 j (by simp [METAL_KEYS, METALS])

/-- Witness for C4 at the concrete draws `r1 = 1/2`, `r2 = 2/3`. -/
theorem c4_selection_witness : SelectionSpec (1/2) (2/3) :=
  c4_selection (1/2) (2/3) (by norm_num) (by norm_num) (by norm_num)
    (by norm_num)

/-- A three.js `Vector3` with exact rational coordinates. -/
@[ext]
structure Vec3 where
  x : ℚ
  y : ℚ
  z : ℚ
deriving DecidableEq

/-- `Vector3.add`. -/
def vadd (a b : Vec3) : Vec3 :=
  ⟨a.x + b.x, a.y + b.y, a.z + b.z⟩

/-- `Vector3.sub`. -/
def vsub (a b : Vec3) : Vec3 :=
  ⟨a.x - b.x, a.y - b.y, a.z - b.z⟩

/-- `Vector3.negate`. -/
def vneg (a : Vec3) : Vec3 :=
  ⟨-a.x, -a.y, -a.z⟩

/-- Componentwise minimum (`Box3.expandByPoint` on the `min` corner). -/
def vmin (a b : Vec3) : Vec3 :=
  ⟨min a.x b.x, min a.y b.y, min a.z b.z⟩

/-- Componentwise maximum (`Box3.expandByPoint` on the `max` corner). -/
def vmax (a b : Vec3) : Vec3 :=
  ⟨max a.x b.x, max a.y b.y, max a.z b.z⟩

/-- `Box3.getCenter`: the midpoint of the two corners. -/
def vmid (a b : Vec3) : Vec3 :=
  ⟨(a.x + b.x) / 2, (a.y + b.y) / 2, (a.z + b.z) / 2⟩

/-- `new THREE.Box3().setFromObject(...)` over the object's world-space
vertex positions: the `(min, max)` corner pair, `none` when the object
contributes no vertex (three.js would yield the empty box). -/
def boxOfPoints : List Vec3 → Option (Vec3 × Vec3)
  | [] => none
  | p :: ps => some (ps.foldl vmin p, ps.foldl vmax p)

/-- The bounding-box center `box.getCenter(new THREE.Vector3())` of a
point cloud. -/
def boxCenterOf (ps : List Vec3) : Option Vec3 :=
  (boxOfPoints ps).map (fun lohi => vmid lohi.1 lohi.2)

/-- The loaded `gltf.scene` root as the centering step sees it: its
`position`, and the world-space vertex positions of its meshes expressed
relative to that position (the root carries no rotation or scale at load
time). -/
structure ModelRoot where
  position : Vec3
  verts : List Vec3
deriving DecidableEq

/-- The world-space vertex positions of the model. -/
def worldPoints (root : ModelRoot) : List Vec3 :=
  root.verts.map (fun v => vadd root.position v)

/-- The centering step of the model-load success callback:
`const box = new THREE.Box3().setFromObject(ringRoot);
const center = box.getCenter(new THREE.Vector3());
ringRoot.position.sub(center);`. -/
def centerModel (root : ModelRoot) : ModelRoot :=
  match boxCenterOf (worldPoints root) with
  | none => root
  | some center => { root with position := vsub root.position center }

theorem vmin_vadd (c a b : Vec3) :
    vmin (vadd c a) (vadd c b) = vadd c (vmin a b) := by
  simp only [vmin, vadd]
  refine Vec3.ext ?_ ?_ ?_ <;> exact min_add_add_left _ _ _

theorem vmax_vadd (c a b : Vec3) :
    vmax (vadd c a) (vadd c b) = vadd c (vmax a b) := by
  simp only [vmax, vadd]
  refine Vec3.ext ?_ ?_ ?_ <;> exact max_add_add_left _ _ _

theorem vmid_vadd (c a b : Vec3) :
    vmid (vadd c a) (vadd c b) = vadd c (vmid a b) := by
  simp only [vmid, vadd]
  refine Vec3.ext ?_ ?_ ?_ <;> dsimp <;> ring

theorem foldl_vmin_vadd (l : List Vec3) (c p : Vec3) :
    (l.map (vadd c)).foldl vmin (vadd c p) = vadd c (l.foldl vmin p) := by
  induction l generalizing p with
  | nil => rfl
  | cons a l ih => simpa [vmin_vadd] using ih (vmin p a)

theorem foldl_vmax_vadd (l : List Vec3) (c p : Vec3) :
    (l.map (vadd c)).foldl vmax (vadd c p) = vadd c (l.foldl vmax p) := by
  induction l generalizing p with
  | nil => rfl
  | cons a l ih => simpa [vmax_vadd] using ih (vmax p a)

theorem boxCenterOf_translate (c : Vec3) (l : List Vec3) :
    boxCenterOf (l.map (vadd c)) = (boxCenterOf l).map (vadd c) := by
  cases l with
  | nil => rfl
  | cons p ps =>
    simp [boxCenterOf, boxOfPoints, foldl_vmin_vadd, foldl_vmax_vadd,
      vmid_vadd]

/-- C5: after the model-load success callback subtracts the bounding-box
center from the root's position, the world-space bounding-box center of
the model, recomputed, is exactly the scene origin (the embedding is
over ℚ, so "within floating tolerance" holds exactly). -/
theorem c5_centering (root : ModelRoot) (hne : root.verts ≠ []) :
    boxCenterOf (worldPoints (centerModel root)) = some ⟨0, 0, 0⟩ := by
  obtain ⟨ctr, hctr⟩ : ∃ c, boxCenterOf (worldPoints root) = some c := by
    have hwne : worldPoints root ≠ [] := by
      simpa [worldPoints] using hne
    cases hwp : worldPoints root with
    | nil => exact absurd hwp hwne
    | cons a l => exact ⟨_, rfl⟩
  have hfun : vadd (vsub root.position ctr) =
      (vadd (vneg ctr) ∘ vadd root.position) := by
    funext v
    refine Vec3.ext ?_ ?_ ?_ <;> simp [vadd, vsub, vneg] <;> ring
  have hcm : centerModel root =
      { root with position := vsub root.position ctr } := by
    unfold centerModel
    rw [hctr]
  have hmap : worldPoints (centerModel root) =
      (worldPoints root).map (vadd (vneg ctr)) := by
    rw [hcm]
    show root.verts.map (vadd (vsub root.position ctr)) =
      (root.verts.map (vadd root.position)).map (vadd (vneg ctr))
    rw [List.map_map]
    exact congrArg root.verts.map hfun
  rw [hmap, boxCenterOf_translate, hctr]
  show some (vadd (vneg ctr) ctr) = some ⟨0, 0, 0⟩
  refine congrArg some (Vec3.ext ?_ ?_ ?_) <;> simp [vadd, vneg]

/-- Witness for C5: a concrete two-vertex model away from the origin. -/
theorem c5_centering_witness :
    boxCenterOf (worldPoints (centerModel
      ⟨⟨1, 2, 3⟩, [⟨0, 0, 0⟩, ⟨2, 2, 2⟩]⟩)) = some ⟨0, 0, 0⟩ :=
  c5_centering ⟨⟨1, 2, 3⟩, [⟨0, 0, 0⟩, ⟨2, 2, 2⟩]⟩ (by simp)

/-- The mutable camera state the component touches; the projection
matrix is modelled by the parameter values last baked into it by
`updateProjectionMatrix`. -/
structure Camera where
  fov : ℚ
  aspect : ℚ
  near : ℚ
  far : ℚ
  position : Vec3
  projFov : ℚ
  projAspect : ℚ
  projNear : ℚ
  projFar : ℚ
deriving DecidableEq

/-- `camera.updateProjectionMatrix()`: recompute the projection matrix
from the current parameters. -/
def updateProjectionMatrix (c : Camera) : Camera :=
  { c with projFov := c.fov, projAspect := c.aspect,
           projNear := c.near, projFar := c.far }

/-- `new THREE.PerspectiveCamera(45, mount.clientWidth /
mount.clientHeight, 0.01, 1000)` followed by
`camera.position.set(0, 0.6, 2.4)`; the constructor bakes the initial
projection matrix. -/
def initialCamera (w h : ℚ) : Camera :=
  { fov := 45, aspect := w / h, near := 0.01, far := 1000,
    position := ⟨0, 0.6, 2.4⟩,
    projFov := 45, projAspect := w / h, projNear := 0.01, projFar := 1000 }

/-- The camera-fitting tail of the model-load success callback. `tanDeg`
abstracts `x ↦ Math.tan(THREE.MathUtils.degToRad(x))`, the tangent of an
angle given in degrees:
`const dist = radius / Math.tan(THREE.MathUtils.degToRad(camera.fov / 2));
camera.position.set(0, radius * 0.35, dist * 1.22);
camera.near = Math.max(0.001, dist / 100);
camera.far = dist * 100;
camera.updateProjectionMatrix();`
with `radius = Math.max(0.001, sphere.radius)`. -/
def fitCamera (tanDeg : ℚ → ℚ) (sphereRadius : ℚ) (cam : Camera) : Camera :=
  let radius := max 0.001 sphereRadius
  let dist := radius / tanDeg (cam.fov / 2)
  updateProjectionMatrix
    { cam with position := ⟨0, radius * 0.35, dist * 1.22⟩,
               near := max 0.001 (dist / 100),
               far := dist * 100 }

/-- C6: after fitting, with `r = max(0.001, sphere radius)` and
`dist = r / tan(fov/2)` at the camera's 45° vertical field of view, the
camera sits at `(0, 0.35·r, 1.22·dist)`, the near plane is
`max(0.001, dist/100)`, the far plane is `100·dist` (both planes tied to
the computed distance), and the new planes are baked into the projection
matrix. -/
theorem c6_camera_fit (tanDeg : ℚ → ℚ) (w h sphereRadius : ℚ) :
    ∃ r dist : ℚ,
      r = max 0.001 sphereRadius ∧
      dist = r / tanDeg ((45 : ℚ) / 2) ∧
      (fitCamera tanDeg sphereRadius (initialCamera w h)).position =
        ⟨0, 0.35 * r, 1.22 * dist⟩ ∧
      (fitCamera tanDeg sphereRadius (initialCamera w h)).near =
        max 0.001 (dist / 100) ∧
      (fitCamera tanDeg sphereRadius (initialCamera w h)).far = 100 * dist ∧
      (fitCamera tanDeg sphereRadius (initialCamera w h)).projNear =
        (fitCamera tanDeg sphereRadius (initialCamera w h)).near ∧
      (fitCamera tanDeg sphereRadius (initialCamera w h)).projFar =
        (fitCamera tanDeg sphereRadius (initialCamera w h)).far := by
  refine ⟨max 0.001 sphereRadius,
    max 0.001 sphereRadius / tanDeg ((45 : ℚ) / 2), rfl, rfl, ?_, ?_, ?_,
    rfl, rfl⟩
  · show Vec3.mk 0 (max 0.001 sphereRadius * 0.35)
        (max 0.001 sphereRadius / tanDeg ((45 : ℚ) / 2) * 1.22) = _
    refine Vec3.ext rfl ?_ ?_ <;> dsimp <;> ring
  · rfl
  · show max 0.001 sphereRadius / tanDeg ((45 : ℚ) / 2) * 100 = _
    ring

/-- A scene-graph object as the cleanup's `scene.traverse` sees it:
whether it is a mesh, whether it carries a geometry (`obj.geometry` may
be absent, hence the `?.` guard in the source), and how many times that
geometry's `dispose` has run. -/
structure SceneObjGeom where
  isMesh : Bool
  hasGeometry : Bool
  geomDisposals : ℕ
deriving DecidableEq

/-- The cleanup's traverse body:
`if (!obj.isMesh) return; obj.geometry?.dispose?.();`. -/
def disposeGeom (o : SceneObjGeom) : SceneObjGeom :=
  if o.isMesh then
    if o.hasGeometry then { o with geomDisposals := o.geomDisposals + 1 }
    else o
  else o

/-- The mutable per-mount state the cleanup closure touches: disposal
counters for every resource it disposes, the optional HDR reflection map
(`none` until the HDR success callback creates it), the scene's objects,
and whether the renderer's canvas is still attached to the mount node. -/
structure MountState where
  resizeListening : Bool
  rafPending : Bool
  controlsDisposals : ℕ
  dracoDisposals : ℕ
  goldMatDisposals : ℕ
  diamondMatDisposals : ℕ
  metalEnvDisposals : ℕ
  diamondEnv : Option ℕ
  pmremDisposals : ℕ
  sceneObjs : List SceneObjGeom
  rendererDisposals : ℕ
  domParent : Option Unit
deriving DecidableEq

/-- `renderer.domElement?.parentNode?.removeChild(renderer.domElement)`:
the optional chain is a no-op when `parentNode` is `null`; `removeChild`
itself would throw were the canvas not a child of the node, which cannot
arise here — `domParent = some ()` holds exactly while the canvas is
attached to the mount node. -/
def detachCanvas : Option Unit → Except String (Option Unit)
  | none => Except.ok none
  | some _ => Except.ok none

/-- The cleanup closure returned by the effect: remove the resize
listener, cancel the animation frame, dispose controls, DRACO loader,
both shared materials, the synthetic environment map, the HDR map if it
was created (`if (diamondEnv) diamondEnv.dispose?.()`), the PMREM
generator, every mesh geometry in the scene, and the renderer, then
detach the canvas.  The result is `Except` because unguarded JavaScript
member access or `removeChild` on a non-child would throw. -/
def teardown (s : MountState) : Except String MountState :=
  let s1 := { s with
    resizeListening := false,
    rafPending := false,
    controlsDisposals := s.controlsDisposals + 1,
    dracoDisposals := s.dracoDisposals + 1,
    goldMatDisposals := s.goldMatDisposals + 1,
    diamondMatDisposals := s.diamondMatDisposals + 1,
    metalEnvDisposals := s.metalEnvDisposals + 1,
    diamondEnv := s.diamondEnv.map (· + 1),
    pmremDisposals := s.pmremDisposals + 1,
    sceneObjs := s.sceneObjs.map disposeGeom,
    rendererDisposals := s.rendererDisposals + 1 }
  (detachCanvas s1.domParent).map (fun p => { s1 with domParent := p })

/-- The per-mount state right after the effect body ran: listener
installed, animation scheduled, nothing disposed yet, canvas attached.
`hdrLoaded` says whether the HDR success callback had created
`diamondEnv`; `objs` lists the scene's objects as
`(isMesh, hasGeometry)` pairs. -/
def freshMount (hdrLoaded : Bool) (objs : List (Bool × Bool)) : MountState :=
  { resizeListening := true, rafPending := true,
    controlsDisposals := 0, dracoDisposals := 0, goldMatDisposals := 0,
    diamondMatDisposals := 0, metalEnvDisposals := 0,
    diamondEnv := if hdrLoaded then some 0 else none,
    pmremDisposals := 0,
    sceneObjs := objs.map (fun p => ⟨p.1, p.2, 0⟩),
    rendererDisposals := 0, domParent := some () }

theorem disposeGeom_fresh (a b : Bool) :
    a = true → b = true →
    (disposeGeom ⟨a, b, 0⟩).geomDisposals = 1 := by
  cases a <;> cases b <;> simp [disposeGeom]

/-- C7: running the teardown on a freshly mounted state disposes every
resource created during that mount exactly once — controls, DRACO
loader, both shared materials, the synthetic environment map, the HDR
environment map exactly when it was created, the PMREM generator, each
mesh geometry, and the renderer. -/
theorem c7_dispose_each_once (hdrLoaded : Bool) (objs : List (Bool × Bool)) :
    ∃ s, teardown (freshMount hdrLoaded objs) = Except.ok s ∧
      s.controlsDisposals = 1 ∧ s.dracoDisposals = 1 ∧
      s.goldMatDisposals = 1 ∧ s.diamondMatDisposals = 1 ∧
      s.metalEnvDisposals = 1 ∧
      s.diamondEnv = (if hdrLoaded then some 1 else none) ∧
      s.pmremDisposals = 1 ∧ s.rendererDisposals = 1 ∧
      (∀ o ∈ s.sceneObjs, o.isMesh = true → o.hasGeometry = true →
        o.geomDisposals = 1) := by
  refine ⟨_, rfl, rfl, rfl, rfl, rfl, rfl, ?_, rfl, rfl, ?_⟩
  · cases hdrLoaded <;> rfl
  · intro o hmem h1 h2
    simp only [freshMount, teardown, List.map_map, List.mem_map] at hmem
    obtain ⟨p, _, rfl⟩ := hmem
    revert h1 h2
    exact fun h1 h2 => by
      cases hp1 : p.1 <;> cases hp2 : p.2 <;>
        simp_all [disposeGeom, Function.comp]

/-- C8: the teardown never throws, from any state — in particular when
the HDR environment map was never created and when the canvas was
already detached — and running it a second time on the resulting state
succeeds as well. -/
theorem detachCanvas_ok (p : Option Unit) : detachCanvas p = Except.ok none := by
  cases p <;> rfl

theorem teardown_ok (s : MountState) : ∃ t, teardown s = Except.ok t := by
  simp only [teardown, detachCanvas_ok]
  exact ⟨_, rfl⟩

theorem c8_teardown_twice_safe (s : MountState) :
    ∃ s1 s2, teardown s = Except.ok s1 ∧ teardown s1 = Except.ok s2 := by
  obtain ⟨s1, h1⟩ := teardown_ok s
  obtain ⟨s2, h2⟩ := teardown_ok s1
  exact ⟨s1, s2, h1, h2⟩

/-- Witness for C8 on a state with no HDR map and the canvas already
detached (the second-invocation shape). -/
theorem c8_teardown_twice_safe_witness :
    ∃ s1 s2,
      teardown
        ⟨false, false, 1, 1, 1, 1, 1, none, 1, [⟨true, true, 1⟩], 1, none⟩ =
          Except.ok s1 ∧
      teardown s1 = Except.ok s2 :=
  c8_teardown_twice_safe
    ⟨false, false, 1, 1, 1, 1, 1, none, 1, [⟨true, true, 1⟩], 1, none⟩

/-- The renderer's output size, as `renderer.setSize` records it. -/
structure RendererSize where
  width : ℚ
  height : ℚ
deriving DecidableEq

/-- The `onResize` handler:
`const w = mount.clientWidth; const h = mount.clientHeight;
camera.aspect = w / h; camera.updateProjectionMatrix();
renderer.setSize(w, h);`. -/
def onResize (clientWidth clientHeight : ℚ) (cam : Camera)
    (ren : RendererSize) : Camera × RendererSize :=
  let w := clientWidth
  let h := clientHeight
  let cam2 := updateProjectionMatrix { cam with aspect := w / h }
  (cam2, { ren with width := w, height := h })

/-- C9: for every container size with positive height, after the resize
handler runs the renderer's output size equals the container's client
width and height exactly, and the camera's aspect ratio equals their
quotient, with the new aspect baked into the projection matrix. -/
theorem c9_resize (w h : ℚ) (cam : Camera) (ren : RendererSize)
    (_hh : 0 < h) :
    (onResize w h cam ren).2.width = w ∧
    (onResize w h cam ren).2.height = h ∧
    (onResize w h cam ren).1.aspect = w / h ∧
    (onResize w h cam ren).1.projAspect = w / h :=
  ⟨rfl, rfl, rfl, rfl⟩

/-- Witness for C9 at a 800×520 container. -/
theorem c9_resize_witness :
    (0 : ℚ) < 520 ∧
    ((onResize 800 520 (initialCamera 640 480) ⟨640, 480⟩).2.width = 800 ∧
      (onResize 800 520 (initialCamera 640 480) ⟨640, 480⟩).2.height = 520 ∧
      (onResize 800 520 (initialCamera 640 480) ⟨640, 480⟩).1.aspect =
        800 / 520 ∧
      (onResize 800 520 (initialCamera 640 480) ⟨640, 480⟩).1.projAspect =
        800 / 520) :=
  ⟨by norm_num,
   c9_resize 800 520 (initialCamera 640 480) ⟨640, 480⟩ (by norm_num)⟩

end RingSpec
